import Mathlib

/-!
Verification of the channel-relay forwarder (src/main.py) against its
natural-language specification.

The Python source is shallowly embedded below.  Python strings are Lean
`String`s (Python `str` indexing is by code point, which matches
`String.data : List Char`); Python `None`-able values are `Option`s;
Python truthiness of optional strings (`None` and `""` are falsy) is
`truthyStr`.  Configuration read from environment variables is gathered
into an explicit `Config` record and passed to each embedded function.
Each definition carries a comment naming the Python function and lines
it embeds.
-/

namespace Forwarder

/-- Python truthiness of an optional string: `None` and `""` are falsy. -/
def truthyStr : Option String → Bool
  | none => false
  | some s => !s.isEmpty

/-- Python slice `t[a:b]` for non-negative `a`, `b` (clamping, empty when
`b ≤ a`), by code point. -/
def pySlice (t : String) (a b : Nat) : String :=
  String.mk ((t.data.drop a).take (b - a))

/-- Python slice `t[a:]` for non-negative `a`. -/
def pySliceFrom (t : String) (a : Nat) : String :=
  String.mk (t.data.drop a)

/-- Python `s.lower()` (ASCII case folding; the marker and the
counterexamples below are ASCII). -/
def lowerStr (s : String) : String :=
  String.mk (s.data.map Char.toLower)

/-- Python `needle in hay` for strings: contiguous-substring test. -/
def strContains (hay needle : String) : Bool :=
  decide (needle.data <:+: hay.data)

/-- Python `s.rstrip('/')`: remove every trailing `'/'`. -/
def rstripSlash (s : String) : String :=
  String.mk ((s.data.reverse.dropWhile (fun c => c = '/')).reverse)

/-- Self-contained `concatMap` on lists (used for the UTF-8 byte stream
and the per-destination delivery loop). -/
def concatMap (f : α → List β) : List α → List β
  | [] => []
  | a :: as => f a ++ concatMap f as

/-- The static configuration surface of src/main.py lines 14-23 and 34
(the fields the verified core reads).  `DEST_LIST` is the already-split
destination list of line 34; `REDIRECT_BASE = ""` means "not configured"
(Python empty-string falsiness at line 80). -/
structure Config where
  SOURCE_CHANNEL_ID : String
  DEST_LIST : List String
  REDIRECT_BASE : String
  CAPTION_TEMPLATE : String
  FOOTER_TEXT : String
deriving DecidableEq

/-- src/main.py line 70. -/
def TERABOX_RE_FRAGMENT : String := "terabox"

/-- Characters CPython's `urllib.parse` accepts in a URL scheme
(`scheme_chars`: ASCII letters, digits, `+`, `-`, `.`). -/
def scheme_char (c : Char) : Bool :=
  c.isAlpha || c.isDigit || c = '+' || c = '-' || c = '.'

/-- Whether a candidate scheme (the part before the first `:`) is a
valid non-empty scheme: first char an ASCII letter, all chars in
`scheme_chars`. -/
def validScheme : List Char → Bool
  | [] => false
  | c0 :: rest => c0.isAlpha && (c0 :: rest).all scheme_char

/-- CPython `urlsplit` scheme removal: when a `:` exists and the part
before the first `:` is a valid scheme, drop the scheme and the colon;
otherwise keep the string as is. -/
def afterScheme (cs : List Char) : List Char :=
  let before := cs.takeWhile (fun c => c ≠ ':')
  if before.length < cs.length ∧ validScheme before = true then
    cs.drop (before.length + 1)
  else cs

/-- The WHATWG C0-control-or-space characters (code points 0x00-0x20):
CPython `urlsplit` strips these from the front of the URL before any
parsing (`_WHATWG_C0_CONTROL_OR_SPACE`). -/
def c0_control_or_space (c : Char) : Bool := c.toNat ≤ 32

/-- The characters CPython `urlsplit` deletes from the URL before any
parsing (its unsafe-bytes list, bpo-43882 / CVE-2022-0391): tab, LF,
CR. -/
def tab_cr_lf (c : Char) : Bool :=
  c.toNat = 9 || c.toNat = 10 || c.toNat = 13

/-- CPython `urlsplit`'s URL sanitization, performed before scheme and
netloc parsing: strip leading C0-control-or-space characters, then
delete every tab, CR and LF.  (The leading strip is present since
CPython 3.10; the 2021 security backports to 3.6-3.9 perform only the
tab/CR/LF deletion — the two pipelines agree on every URL that does not
begin with a C0-control-or-space character.) -/
def sanitizeUrl (cs : List Char) : List Char :=
  (cs.dropWhile c0_control_or_space).filter (fun c => !tab_cr_lf c)

/-- CPython `urlsplit` netloc extraction: sanitize the URL, remove the
scheme, and if the rest starts with `//` the netloc is everything up to
the next `/`, `?` or `#`; otherwise the netloc is empty.  Because of
the sanitization the netloc is NOT in general a substring of the
original URL. -/
def urlparse_netloc (url : String) : List Char :=
  let rest := afterScheme (sanitizeUrl url.data)
  if rest.take 2 = ['/', '/'] then
    (rest.drop 2).takeWhile (fun c => c ≠ '/' && c ≠ '?' && c ≠ '#')
  else []

/-- CPython `urlsplit` raises `ValueError ("Invalid IPv6 URL")` when the
netloc contains `[` without `]` or `]` without `[`.  (CPython ≥ 3.11
additionally validates the contents of a bracketed host; the
counterexample below uses a mismatched bracket, on which every CPython 3
version raises.) -/
def invalidIPv6 (netloc : List Char) : Bool :=
  ('[' ∈ netloc && !(']' ∈ netloc)) || (']' ∈ netloc && !('[' ∈ netloc))

/-- src/main.py lines 72-77 (`is_terabox_url`): `urlparse(url)` followed
by the marker test on the lower-cased netloc or the lower-cased full
URL; a `ValueError` from `urlparse` is caught and yields `False`.
The netloc comes from the sanitized URL, while the full-string disjunct
tests the original, unsanitized argument (`url.lower()`). -/
def is_terabox_url (url : String) : Bool :=
  let netloc := urlparse_netloc url
  if invalidIPv6 netloc then false
  else
    strContains (lowerStr (String.mk netloc)) TERABOX_RE_FRAGMENT ||
      strContains (lowerStr url) TERABOX_RE_FRAGMENT

/-- UTF-8 encoding of one code point, as byte values. -/
def utf8Bytes (c : Char) : List Nat :=
  let n := c.toNat
  if n < 128 then [n]
  else if n < 2048 then [192 + n / 64, 128 + n % 64]
  else if n < 65536 then [224 + n / 4096, 128 + (n / 64) % 64, 128 + n % 64]
  else [240 + n / 262144, 128 + (n / 4096) % 64, 128 + (n / 64) % 64, 128 + n % 64]

/-- Upper-case hexadecimal digit for `n < 16`. -/
def hexUpper (n : Nat) : Char :=
  if n < 10 then Char.ofNat (48 + n) else Char.ofNat (55 + n)

/-- CPython `quote`'s always-safe bytes: ASCII letters, digits, `_`,
`.`, `-`, `~`. -/
def always_safe_byte (b : Nat) : Bool :=
  (65 ≤ b && b ≤ 90) || (97 ≤ b && b ≤ 122) || (48 ≤ b && b ≤ 57) ||
    b = 95 || b = 46 || b = 45 || b = 126

/-- One byte of `quote_plus` output: space becomes `+`, safe bytes pass
through, every other byte becomes `%XX` with upper-case hex. -/
def quoteByte (b : Nat) : List Char :=
  if b = 32 then ['+']
  else if always_safe_byte b then [Char.ofNat b]
  else ['%', hexUpper (b / 16), hexUpper (b % 16)]

/-- CPython `urllib.parse.quote_plus` on a string: UTF-8 encode, then
per byte keep safe bytes, turn spaces into `+`, percent-encode the rest. -/
def quote_plus (s : String) : String :=
  String.mk (concatMap quoteByte (concatMap utf8Bytes s.data))

/-- src/main.py lines 79-83 (`build_redirect`). -/
def build_redirect (cfg : Config) (original_url : String) : String :=
  if cfg.REDIRECT_BASE = "" then original_url
  else rstripSlash cfg.REDIRECT_BASE ++ "/?u=" ++ quote_plus original_url

/-- A Telegram `MessageEntity` as used by src/main.py: a styled range
over the message text.  `url` is the `text_link` target
(`getattr(ent, "url", None)`). -/
structure MessageEntity where
  type : String
  offset : Nat
  length : Nat
  url : Option String := none
deriving DecidableEq

/-- Python `sorted(entities, key=lambda e: e.offset)` is a stable
ascending sort; this is the stable insertion step (an element moves past
strictly smaller offsets only, so earlier elements stay in front of
later elements with an equal offset). -/
def insertByOffset (e : MessageEntity) : List MessageEntity → List MessageEntity
  | [] => [e]
  | x :: xs => if x.offset < e.offset then x :: insertByOffset e xs else e :: x :: xs

/-- Stable insertion sort by `offset`, the model of
`sorted(entities, key=lambda e: e.offset)` at src/main.py line 91. -/
def sortByOffset (entities : List MessageEntity) : List MessageEntity :=
  entities.foldr insertByOffset []

/-- The string appended for one entity inside the loop of
src/main.py lines 91-102: the slice for plain `url` entities (redirected
when tracked), the target for truthy-`url` `text_link` entities
(redirected when tracked), the slice verbatim otherwise. -/
def entity_piece (cfg : Config) (text : String) (ent : MessageEntity) : String :=
  let ent_text := pySlice text ent.offset (ent.offset + ent.length)
  if ent.type = "url" then
    if is_terabox_url ent_text then build_redirect cfg ent_text else ent_text
  else if ent.type = "text_link" && truthyStr ent.url then
    let u := ent.url.getD ""
    if is_terabox_url u then build_redirect cfg u else u
  else ent_text

/-- src/main.py lines 86-104 (`replace_entities_in_text`): walk the
entities sorted by offset, copying the gap before each entity and then
its piece, and append the trailing gap.  An empty (or `None`) entity
list returns the text unchanged (line 88; `text or ""` equals `text`
there because a falsy `text` is `""` itself). -/
def replace_entities_in_text (cfg : Config) (text : String) (entities : List MessageEntity) : String :=
  if entities = [] then text
  else
    let acc := (sortByOffset entities).foldl
      (fun (acc : String × Nat) ent =>
        (acc.1 ++ pySlice text acc.2 ent.offset ++ entity_piece cfg text ent,
         ent.offset + ent.length))
      ("", 0)
    acc.1 ++ pySliceFrom text acc.2

/-- src/main.py lines 106-120 (`extract_terabox_links_from_entities`):
collect, in entity order, the slice of each `url` entity and the target
of each truthy-`url` `text_link` entity, keeping only tracked ones. -/
def extract_terabox_links_from_entities (text : String) : List MessageEntity → List String
  | [] => []
  | ent :: rest =>
    if ent.type = "url" then
      let raw := pySlice text ent.offset (ent.offset + ent.length)
      (if is_terabox_url raw then [raw] else []) ++
        extract_terabox_links_from_entities text rest
    else if ent.type = "text_link" && truthyStr ent.url then
      (if is_terabox_url (ent.url.getD "") then [ent.url.getD ""] else []) ++
        extract_terabox_links_from_entities text rest
    else extract_terabox_links_from_entities text rest

/-- A Telegram `InlineKeyboardButton` as used by src/main.py.  Exactly
one of `url` / `callback_data` is meaningful. -/
structure InlineKeyboardButton where
  text : String
  url : Option String := none
  callback_data : Option String := none
deriving DecidableEq

/-- An inline keyboard: rows of buttons. -/
abbrev Grid := List (List InlineKeyboardButton)

/-- The per-button body of the loop at src/main.py lines 128-133. -/
def convert_button (cfg : Config) (btn : InlineKeyboardButton) : InlineKeyboardButton :=
  if truthyStr btn.url then
    let u := btn.url.getD ""
    { text := if btn.text = "" then "link" else btn.text,
      url := some (if is_terabox_url u then build_redirect cfg u else u) }
  else
    { text := if btn.text = "" then "btn" else btn.text,
      callback_data := some (if truthyStr btn.callback_data then btn.callback_data.getD "" else "noop") }

/-- src/main.py lines 122-135 (`convert_inline_markup`): `None` maps to
`None`, otherwise every button of every row is rebuilt in place by
`convert_button`. -/
def convert_inline_markup (cfg : Config) : Option Grid → Option Grid
  | none => none
  | some rows => some (rows.map (fun row => row.map (convert_button cfg)))

/-- The opening-brace character (code 123). -/
def lbrace : Char := Char.ofNat 123

/-- The closing-brace character (code 125). -/
def rbrace : Char := Char.ofNat 125

/-- Key lookup in the substitution map passed to `str.format(**subs)`. -/
def lookupSub (subs : List (String × String)) (k : String) : Option String :=
  (subs.find? (fun p => p.1 == k)).map (fun p => p.2)

/-- Model of CPython `str.format(**subs)` for the simple-field subset:
literal text is copied, doubled braces denote literal braces, a
replacement field is the text between braces and must be a key of
`subs`; a lone closing brace, an unclosed field or an unknown field name
is an error (`none`, standing for the raised `ValueError`/`KeyError`/
`IndexError`).  Anything beyond simple named fields (format specs,
conversions, nesting) also comes out as `none`; for the claims settled
here only which inputs fail matters at chosen concrete templates, and
those use simple fields.  The fuel argument strictly dominates the
remaining length, so the `0` case is never reached when started with
`length + 1`. -/
def pyFormatFuel (subs : List (String × String)) : Nat → List Char → Option (List Char)
  | 0, _ => none
  | _ + 1, [] => some []
  | fuel + 1, c :: rest =>
    if c = lbrace then
      match rest with
      | [] => none
      | d :: rest2 =>
        if d = lbrace then (pyFormatFuel subs fuel rest2).map (fun out => lbrace :: out)
        else
          let field := rest.takeWhile (fun x => x ≠ rbrace)
          match rest.drop field.length with
          | [] => none
          | _ :: rest3 =>
            match lookupSub subs (String.mk field) with
            | none => none
            | some v => (pyFormatFuel subs fuel rest3).map (fun out => v.data ++ out)
    else if c = rbrace then
      match rest with
      | [] => none
      | d :: rest2 =>
        if d = rbrace then (pyFormatFuel subs fuel rest2).map (fun out => rbrace :: out)
        else none
    else (pyFormatFuel subs fuel rest).map (fun out => c :: out)

/-- `str.format(**subs)` on a template, `none` when it raises. -/
def pyFormat (subs : List (String × String)) (template : String) : Option String :=
  (pyFormatFuel subs (template.data.length + 1) template.data).map String.mk

/-- The substitution map built at src/main.py lines 138-143. -/
def caption_subs (cfg : Config) (original_text src_channel : String) (src_msg_id : Int) : List (String × String) :=
  [("original_text", original_text),
   ("source_channel", src_channel),
   ("source_msg_id", toString src_msg_id),
   ("footer", cfg.FOOTER_TEXT)]

/-- src/main.py lines 137-148 (`build_caption`): format the template;
on any exception fall back to `original_text + "\x7bliteral backslash,
n, backslash, n\x7d" + footer`.  NB the Python literal at line 148 is
`"\\n\\n"`, i.e. the four characters backslash, `n`, backslash, `n`,
not two newline characters — and the Lean literal below is the same
four characters.  `original_text or ""` and `FOOTER_TEXT or ""` equal
the strings themselves (a falsy string is `""`). -/
def build_caption (cfg : Config) (original_text src_channel : String) (src_msg_id : Int) : String :=
  match pyFormat (caption_subs cfg original_text src_channel src_msg_id) cfg.CAPTION_TEMPLATE with
  | some out => out
  | none => original_text ++ "\\n\\n" ++ cfg.FOOTER_TEXT

/-- The dedupe store of src/main.py lines 40-67, as the set of primary
keys `(source_chat_id, source_message_id)` of table `forwarded` (the
`forwarded_at` timestamp carries no information the core reads). -/
abbrev Store := List (String × Int)

/-- src/main.py lines 54-60 (`already_forwarded`): the key-existence
query.  The handler passes the raw ids and the function applies
`str`/`int`; here the caller passes the already-stringified chat id. -/
def already_forwarded (store : Store) (chat_id : String) (msg_id : Int) : Bool :=
  decide ((chat_id, msg_id) ∈ store)

/-- src/main.py lines 62-67 (`mark_forwarded`): `INSERT OR REPLACE` of
the key — set-insert semantics on the primary key. -/
def mark_forwarded (store : Store) (chat_id : String) (msg_id : Int) : Store :=
  if (chat_id, msg_id) ∈ store then store else (chat_id, msg_id) :: store

/-- An incoming channel post (`update.channel_post`), with the fields
src/main.py reads.  Media objects are represented by their `file_id`;
`photo` is the size list (`msg.photo[-1]` is its last element). -/
structure Message where
  chat_id : Int
  message_id : Int
  text : Option String := none
  entities : List MessageEntity := []
  caption : Option String := none
  caption_entities : List MessageEntity := []
  photo : List String := []
  document : Option String := none
  video : Option String := none
  audio : Option String := none
  voice : Option String := none
  sticker : Option String := none
  reply_markup : Option Grid := none
deriving DecidableEq

/-- The kind of outbound bot-API call made in the delivery loop. -/
inductive CallKind where
  | photo | document | video | audio | voice | sticker | message | forward
deriving DecidableEq

/-- One outbound delivery call of src/main.py lines 200-220: destination
chat, API method, optional media handle, optional caption/text, optional
`reply_markup`. -/
structure Call where
  dest : String
  kind : CallKind
  payload : Option String := none
  caption : Option String := none
  markup : Option Grid := none
deriving DecidableEq

/-- An observable side effect of the handler: an outbound delivery call
or a dedupe-store commit. -/
inductive Event where
  | send (c : Call)
  | mark (chat_id : String) (msg_id : Int)
deriving DecidableEq

/-- `caption_to_send or None` (src/main.py lines 203-211). -/
def optCaption (c : String) : Option String :=
  if c = "" then none else some c

/-- The calls the body of one destination's `try` block would make if
nothing raised, following the `elif` chain of src/main.py lines 202-220:
one media send per media kind (caption attached, markup attached), for a
sticker the sticker send followed by a separate plain message carrying a
non-empty caption (neither with markup), otherwise a plain message with
markup when the caption is non-empty, else a verbatim forward. -/
def destCalls (msg : Message) (caption_to_send : String) (inline_kb : Option Grid) (dest : String) : List Call :=
  if msg.photo ≠ [] then
    [{ dest := dest, kind := .photo, payload := msg.photo.getLast?,
       caption := optCaption caption_to_send, markup := inline_kb }]
  else if msg.document.isSome then
    [{ dest := dest, kind := .document, payload := msg.document,
       caption := optCaption caption_to_send, markup := inline_kb }]
  else if msg.video.isSome then
    [{ dest := dest, kind := .video, payload := msg.video,
       caption := optCaption caption_to_send, markup := inline_kb }]
  else if msg.audio.isSome then
    [{ dest := dest, kind := .audio, payload := msg.audio,
       caption := optCaption caption_to_send, markup := inline_kb }]
  else if msg.voice.isSome then
    [{ dest := dest, kind := .voice, payload := msg.voice,
       caption := optCaption caption_to_send, markup := inline_kb }]
  else if msg.sticker.isSome then
    { dest := dest, kind := .sticker, payload := msg.sticker } ::
      (if caption_to_send ≠ "" then
        [{ dest := dest, kind := .message, caption := some caption_to_send }]
      else [])
  else if caption_to_send ≠ "" then
    [{ dest := dest, kind := .message, caption := some caption_to_send, markup := inline_kb }]
  else
    [{ dest := dest, kind := .forward }]

/-- The calls actually attempted inside one `try` block when `fails`
says which call raises: calls run in order, the first raising call ends
the block (it was attempted — the exception is caught at line 222 and
only logged). -/
def attemptCalls (fails : Call → Bool) : List Call → List Call
  | [] => []
  | c :: rest => if fails c then [c] else c :: attemptCalls fails rest

/-- The seen-set dedupe of the loop at src/main.py lines 184-189: keep
the first occurrence of each link, in order. -/
def dedupKeepFirst (seen : List String) : List String → List String
  | [] => []
  | l :: rest =>
    if l ∈ seen then dedupKeepFirst seen rest
    else l :: dedupKeepFirst (l :: seen) rest

/-- src/main.py lines 183-196: when tracked links were found, build one
button per distinct link (first-seen order), labeled "Open (Terabox)"
with the link's redirect as URL, and append that row after the existing
rows (a fresh single-row grid when there was no markup); otherwise leave
the markup untouched. -/
def appendTeraboxRow (cfg : Config) (terabox_links : List String) (inline_kb : Option Grid) : Option Grid :=
  if terabox_links = [] then inline_kb
  else
    let tb_buttons := (dedupKeepFirst [] terabox_links).map
      (fun l => { text := "Open (Terabox)", url := some (build_redirect cfg l) : InlineKeyboardButton })
    match inline_kb with
    | some rows => some (rows ++ [tb_buttons])
    | none => some [tb_buttons]

/-- src/main.py lines 169-176: resolve the post's text-or-caption and
its entity list, text taking priority; a post with neither yields `""`
with no entities (the `entities = None` case behaves as `[]` in both
consumers, lines 88 and 108-109). -/
def resolveContent (msg : Message) : String × List MessageEntity :=
  if truthyStr msg.text then (msg.text.getD "", msg.entities)
  else if truthyStr msg.caption then (msg.caption.getD "", msg.caption_entities)
  else ("", [])

/-- `caption_to_send` of src/main.py line 198: the caption built from
the rewritten text (line 178). -/
def relayCaption (cfg : Config) (msg : Message) : String :=
  build_caption cfg
    (replace_entities_in_text cfg (resolveContent msg).1 (resolveContent msg).2)
    (toString msg.chat_id) msg.message_id

/-- The final `inline_kb` of src/main.py lines 181-196: the converted
markup when the post has one (line 181), with the tracked-link row
appended when tracked links were extracted (lines 179, 183-196). -/
def relayMarkup (cfg : Config) (msg : Message) : Option Grid :=
  appendTeraboxRow cfg
    (extract_terabox_links_from_entities (resolveContent msg).1 (resolveContent msg).2)
    (if msg.reply_markup.isSome then convert_inline_markup cfg msg.reply_markup else none)

/-- The delivery calls one accepted post produces: every destination's
`try` block, in destination order (src/main.py lines 200-223). -/
def relayCalls (cfg : Config) (fails : Call → Bool) (msg : Message) : List Call :=
  concatMap
    (fun dest => attemptCalls fails (destCalls msg (relayCaption cfg msg) (relayMarkup cfg msg) dest))
    cfg.DEST_LIST

/-- src/main.py lines 151-225 (`handle_channel_post`): the source filter
(line 159), the dedupe check (line 163), then the delivery loop followed
by the unconditional `mark_forwarded` (line 225).  The result is the
ordered trace of observable effects together with the final store. -/
def handle_channel_post (cfg : Config) (fails : Call → Bool) (store : Store) (msg : Message) :
    List Event × Store :=
  if cfg.SOURCE_CHANNEL_ID ≠ "" ∧ toString msg.chat_id ≠ cfg.SOURCE_CHANNEL_ID then ([], store)
  else if already_forwarded store (toString msg.chat_id) msg.message_id then ([], store)
  else
    ((relayCalls cfg fails msg).map Event.send ++
        [Event.mark (toString msg.chat_id) msg.message_id],
     mark_forwarded store (toString msg.chat_id) msg.message_id)

/-- The candidate URL of one styled range per §4.4 of the spec: the
slice for a plain `url` range, the target for a `text_link` range with a
truthy target, nothing otherwise.  (Characterization used to state the
extractor claim; it mirrors the two guards of the extractor loop.) -/
def entity_candidate (text : String) (ent : MessageEntity) : Option String :=
  if ent.type = "url" then some (pySlice text ent.offset (ent.offset + ent.length))
  else if ent.type = "text_link" && truthyStr ent.url then some (ent.url.getD "")
  else none

/-- The default button used for out-of-range index lookups in the markup
claim. -/
def dfltButton : InlineKeyboardButton := { text := "" }

/-- The per-button property claimed for the markup converter (§4.5): a
url-bearing button keeps its label (fallback "link" when empty) and gets
the classified-and-redirected URL; a button carrying an opaque action
keeps the action unchanged (label fallback "btn" when empty). -/
def convertButtonClaim (cfg : Config) (old new : InlineKeyboardButton) : Prop :=
  (truthyStr old.url = true →
    new = { text := if old.text = "" then "link" else old.text,
            url := some (if is_terabox_url (old.url.getD "")
                         then build_redirect cfg (old.url.getD "")
                         else old.url.getD ""),
            callback_data := none }) ∧
  (truthyStr old.url = false → truthyStr old.callback_data = true →
    new = { text := if old.text = "" then "btn" else old.text,
            url := none,
            callback_data := old.callback_data })

/-! ### Helper lemmas -/

theorem data_mk (cs : List Char) : (String.mk cs).data = cs := rfl

theorem truthyStr_some {s : String} (h : s ≠ "") : truthyStr (some s) = true := by
  cases he : s.isEmpty with
  | false => simp [truthyStr, he]
  | true => exact absurd ((String.isEmpty_iff s).1 he) h

theorem truthyStr_eq_true_iff (o : Option String) :
    truthyStr o = true ↔ ∃ s, o = some s ∧ s ≠ "" := by
  cases o with
  | none => simp [truthyStr]
  | some s =>
    constructor
    · intro h
      refine ⟨s, rfl, ?_⟩
      intro hs
      subst hs
      exact absurd h (by decide)
    · rintro ⟨t, ht, hne⟩
      obtain rfl := Option.some.inj ht
      exact truthyStr_some hne

/-! ### C6: the link classifier -/

/-- C6 counterexample: `urlparse("http://[terabox")` raises
`ValueError ("Invalid IPv6 URL")` in CPython (mismatched bracket in the
authority), so `is_terabox_url` catches the exception and returns
`False`; yet the marker does occur in the lower-cased full URL string,
so the claimed if-and-only-if characterization predicts `True`. -/
theorem c6_counterexample :
    is_terabox_url "http://[terabox" = false ∧
    strContains (lowerStr "http://[terabox") TERABOX_RE_FRAGMENT = true := by
  constructor
  · decide
  · decide

/-- C6 (amended): for every URL whose parsed authority component
contains no square bracket (so `urlparse` does not raise),
`is_terabox_url url` is true iff the marker `"terabox"` occurs
case-insensitively in the host component — the host of the *sanitized*
URL, CPython `urlsplit` having stripped leading C0-control-or-space
characters and deleted every tab, CR and LF before parsing — or
anywhere in the original full URL string.  Because of the
sanitization the host is not in general a substring of the URL, so
neither disjunct subsumes the other.  URLs on which `urlparse` raises
are classified `false` (see the counterexample), and `is_terabox_url`
is a total function: it never raises. -/
theorem c6_classifier (url : String)
    (hl : '[' ∉ urlparse_netloc url) (hr : ']' ∉ urlparse_netloc url) :
    is_terabox_url url =
      (strContains (lowerStr (String.mk (urlparse_netloc url))) TERABOX_RE_FRAGMENT ||
        strContains (lowerStr url) TERABOX_RE_FRAGMENT) := by
  have hinv : invalidIPv6 (urlparse_netloc url) = false := by
    simp [invalidIPv6, hl, hr]
  simp [is_terabox_url, hinv]

/-- C6 witness: a host with an embedded tab, `http://te\trabox.com/x`.
The sanitized host is `terabox.com`, so the classifier returns `true`
through the host disjunct alone — the marker does not occur in the
original full URL string. -/
theorem c6_witness :
    (is_terabox_url "http://te\trabox.com/x" =
      (strContains (lowerStr (String.mk (urlparse_netloc "http://te\trabox.com/x")))
          TERABOX_RE_FRAGMENT ||
        strContains (lowerStr "http://te\trabox.com/x") TERABOX_RE_FRAGMENT)) ∧
    is_terabox_url "http://te\trabox.com/x" = true ∧
    strContains (lowerStr "http://te\trabox.com/x") TERABOX_RE_FRAGMENT = false :=
  ⟨c6_classifier "http://te\trabox.com/x" (by decide) (by decide), by decide, by decide⟩

/-! ### C7: the redirect builder -/

/-- C7: with no redirect base configured `build_redirect` is the
identity; with a base configured it is the base with trailing slashes
stripped, then `"/?u="`, then the `quote_plus` percent-encoding of the
original URL. -/
theorem c7_build_redirect (cfg : Config) (u : String) :
    (cfg.REDIRECT_BASE = "" → build_redirect cfg u = u) ∧
    (cfg.REDIRECT_BASE ≠ "" →
      build_redirect cfg u = rstripSlash cfg.REDIRECT_BASE ++ "/?u=" ++ quote_plus u) := by
  constructor <;> intro h <;> simp [build_redirect, h]

/-- C7 witness, reproducing Scenario A of the spec: pass-through with no
base, and the concrete percent-encoded redirect with the base
`https://go.example.com`. -/
theorem c7_witness :
    build_redirect ⟨"", [], "", "", ""⟩ "https://teraboxfiles.com/abc" =
      "https://teraboxfiles.com/abc" ∧
    build_redirect ⟨"", ["d1"], "https://go.example.com", "t", "f"⟩ "https://teraboxfiles.com/abc" =
      "https://go.example.com/?u=https%3A%2F%2Fteraboxfiles.com%2Fabc" := by
  constructor
  · exact (c7_build_redirect ⟨"", [], "", "", ""⟩ "https://teraboxfiles.com/abc").1 rfl
  · have h := (c7_build_redirect ⟨"", ["d1"], "https://go.example.com", "t", "f"⟩
      "https://teraboxfiles.com/abc").2 (by decide)
    rw [h]
    decide

/-! ### C8: the link extractor -/

/-- C8: the extractor returns exactly the candidate URLs (slice for
plain `url` ranges, target for `text_link` ranges) that are tracked, in
the original annotation iteration order, without deduplication.  The
extractor takes no configuration argument at all — in particular its
result does not depend on whether a redirect base is configured. -/
theorem c8_extract (text : String) (ents : List MessageEntity) :
    extract_terabox_links_from_entities text ents =
      (ents.filterMap (entity_candidate text)).filter (fun u => is_terabox_url u) := by
  induction ents with
  | nil => rfl
  | cons ent rest ih =>
    by_cases h1 : ent.type = "url"
    · by_cases h2 : is_terabox_url (pySlice text ent.offset (ent.offset + ent.length)) <;>
        simp [extract_terabox_links_from_entities, entity_candidate, h1, h2,
          List.filterMap_cons, List.filter_cons, ih]
    · by_cases h2 : (decide (ent.type = "text_link") && truthyStr ent.url) = true
      · by_cases h3 : is_terabox_url (ent.url.getD "") <;>
          simp [extract_terabox_links_from_entities, entity_candidate, h1, h2, h3,
            List.filterMap_cons, List.filter_cons, ih]
      · simp [extract_terabox_links_from_entities, entity_candidate, h1, h2,
          List.filterMap_cons, ih]

/-! ### C4: the caption fallback -/

/-- C4 counterexample: with template `"{missing}"` the substitution
fails (unknown placeholder), and the fallback at src/main.py line 148 is
`original_text + "\\n\\n" + footer` with a double-escaped Python
literal: the separator is the four characters backslash, `n`,
backslash, `n` — not two newline characters as the claim states.  Here
the claimed output (with two real newlines) differs from what
`build_caption` returns. -/
theorem c4_counterexample :
    build_caption ⟨"", [], "", "{missing}", "F"⟩ "x" "chan" 5 ≠ "x" ++ "\n\n" ++ "F" := by
  decide

/-- C4 (amended): when template substitution fails, `build_caption`
does not propagate the exception and returns
`original_text ++ s ++ footer` where `s` is the four-character sequence
backslash, `n`, backslash, `n` (the Python source writes the fallback
separator as the escaped literal `"\\n\\n"`, not as newlines). -/
theorem c4_caption_fallback (cfg : Config) (original_text src_channel : String) (src_msg_id : Int)
    (h : pyFormat (caption_subs cfg original_text src_channel src_msg_id) cfg.CAPTION_TEMPLATE = none) :
    build_caption cfg original_text src_channel src_msg_id =
      original_text ++ "\\n\\n" ++ cfg.FOOTER_TEXT := by
  simp [build_caption, h]

/-- C4 witness: the fallback on a template with an unknown placeholder. -/
theorem c4_witness :
    build_caption ⟨"", [], "", "{missing}", "F"⟩ "x" "chan" 5 = "x" ++ "\\n\\n" ++ "F" :=
  c4_caption_fallback ⟨"", [], "", "{missing}", "F"⟩ "x" "chan" 5 (by decide)

/-! ### C3: the entity rewriter on labeled-url ranges -/

theorem pySlice_left (a b c : String) : pySlice (a ++ b ++ c) 0 a.length = a := by
  have hd : (a ++ b ++ c).data = a.data ++ (b.data ++ c.data) := by
    simp [String.data_append, List.append_assoc]
  simp only [pySlice, hd, List.drop_zero, Nat.sub_zero]
  rw [show a.length = a.data.length from rfl, List.take_left]

theorem pySliceFrom_right (a b c : String) : pySliceFrom (a ++ b ++ c) (a.length + b.length) = c := by
  have hd : (a ++ b ++ c).data = (a.data ++ b.data) ++ c.data := by
    simp [String.data_append]
  simp only [pySliceFrom, hd]
  rw [show a.length + b.length = (a.data ++ b.data).length from by
        simp [List.length_append],
      List.drop_left]

theorem empty_append_str (s : String) : "" ++ s = s := rfl

/-- C3 counterexample: a `text_link` entity whose displayed substring is
`"hi"` and whose target is `http://example.com`.  The rewriter emits the
target into the output text (src/main.py line 99); the displayed
substring is not kept, contradicting the claim that the output text
keeps the original displayed substring at that range. -/
theorem c3_counterexample :
    replace_entities_in_text ⟨"", [], "", "", ""⟩ "hi"
        [⟨"text_link", 0, 2, some "http://example.com"⟩] = "http://example.com" ∧
    "http://example.com" ≠ "hi" := by
  constructor
  · decide
  · decide

/-- C3 (amended): for a labeled-url (`text_link`) range, the rewriter
classifies and redirects using the target URL rather than the displayed
substring, and the output text substitutes the (possibly redirected)
target URL in place of the displayed substring — the displayed
substring is dropped, only the surrounding text is kept. -/
theorem c3_text_link_uses_target (cfg : Config) (pre label post url : String) (h : url ≠ "") :
    replace_entities_in_text cfg (pre ++ label ++ post)
        [⟨"text_link", pre.length, label.length, some url⟩] =
      pre ++ (if is_terabox_url url then build_redirect cfg url else url) ++ post := by
  have hsort : sortByOffset [⟨"text_link", pre.length, label.length, some url⟩] =
      [⟨"text_link", pre.length, label.length, some url⟩] := rfl
  simp only [replace_entities_in_text, hsort, List.foldl_cons, List.foldl_nil,
    reduceCtorEq, if_false]
  simp only [entity_piece, truthyStr_some h, Bool.and_true, decide_eq_true_eq]
  rw [if_neg (by decide : ¬("text_link" : String) = "url")]
  simp only [if_pos rfl, Option.getD_some]
  rw [pySlice_left pre label post, pySliceFrom_right pre label post, empty_append_str]
  simp

/-- C3 witness: the amended statement at a concrete tracked target. -/
theorem c3_witness :
    replace_entities_in_text ⟨"", [], "", "", ""⟩ ("a" ++ "bb" ++ "c")
        [⟨"text_link", "a".length, "bb".length, some "http://terabox.com/x"⟩] =
      "a" ++ (if is_terabox_url "http://terabox.com/x"
              then build_redirect ⟨"", [], "", "", ""⟩ "http://terabox.com/x"
              else "http://terabox.com/x") ++ "c" :=
  c3_text_link_uses_target ⟨"", [], "", "", ""⟩ "a" "bb" "c" "http://terabox.com/x" (by decide)

/-! ### C5: the markup converter -/

theorem convert_button_sound (cfg : Config) (b : InlineKeyboardButton) :
    convertButtonClaim cfg b (convert_button cfg b) := by
  constructor
  · intro h
    simp [convert_button, h]
  · intro h hcb
    obtain ⟨s, hs, hne⟩ := (truthyStr_eq_true_iff _).1 hcb
    simp [convert_button, h, hs, truthyStr_some hne]

theorem convertButtonClaim_dflt (cfg : Config) :
    convertButtonClaim cfg dfltButton dfltButton := by
  constructor
  · intro h
    exact absurd h (by decide)
  · intro h hcb
    exact absurd hcb (by decide)

/-- C5: on a non-null grid the converter returns a grid with the same
row count, the same button count in every row, and in every position a
button related to the original by `convertButtonClaim`: url-bearing
buttons keep their label (fallback `"link"` when empty) and carry the
classified-and-redirected URL; buttons carrying an opaque action keep
the action unchanged (label fallback `"btn"` when empty). -/
theorem c5_convert_markup (cfg : Config) (g : Grid) :
    ∃ g2, convert_inline_markup cfg (some g) = some g2 ∧
      g2.length = g.length ∧
      (∀ i, (g2.getD i []).length = (g.getD i []).length) ∧
      (∀ i j, convertButtonClaim cfg
        ((g.getD i []).getD j dfltButton) ((g2.getD i []).getD j dfltButton)) := by
  refine ⟨g.map (fun row => row.map (convert_button cfg)), by rfl, by simp, ?_, ?_⟩
  · intro i
    rcases h : g[i]? with _ | row
    · simp [List.getD_eq_getElem?_getD, List.getElem?_map, h]
    · simp [List.getD_eq_getElem?_getD, List.getElem?_map, h]
  · intro i j
    rcases h : g[i]? with _ | row
    · simp only [List.getD_eq_getElem?_getD, List.getElem?_map, h, Option.map_none',
        Option.getD_none]
      exact convertButtonClaim_dflt cfg
    · simp only [List.getD_eq_getElem?_getD, List.getElem?_map, h, Option.map_some',
        Option.getD_some]
      rcases h2 : row[j]? with _ | btn
      · simp only [List.getElem?_map, h2, Option.map_none', Option.getD_none]
        exact convertButtonClaim_dflt cfg
      · simp only [List.getElem?_map, h2, Option.map_some', Option.getD_some]
        exact convert_button_sound cfg btn

/-- C5 witness: the converter property at a concrete two-button grid
(one tracked url button with empty label, one callback button). -/
theorem c5_witness :
    ∃ g2, convert_inline_markup ⟨"", [], "", "", ""⟩
        (some [[{ text := "", url := some "https://terabox.com/a" },
                { text := "B", callback_data := some "act" }]]) = some g2 ∧
      g2.length = ([[{ text := "", url := some "https://terabox.com/a" },
                     { text := "B", callback_data := some "act" }]] : Grid).length ∧
      (∀ i, (g2.getD i []).length =
        (([[{ text := "", url := some "https://terabox.com/a" },
            { text := "B", callback_data := some "act" }]] : Grid).getD i []).length) ∧
      (∀ i j, convertButtonClaim ⟨"", [], "", "", ""⟩
        ((([[{ text := "", url := some "https://terabox.com/a" },
             { text := "B", callback_data := some "act" }]] : Grid).getD i []).getD j dfltButton)
        ((g2.getD i []).getD j dfltButton)) :=
  c5_convert_markup ⟨"", [], "", "", ""⟩
    [[{ text := "", url := some "https://terabox.com/a" },
      { text := "B", callback_data := some "act" }]]

/-! ### C9: the appended tracked-link button row -/

theorem dedupKeepFirst_mem (a : String) :
    ∀ (xs seen : List String), a ∈ dedupKeepFirst seen xs ↔ a ∈ xs ∧ a ∉ seen := by
  intro xs
  induction xs with
  | nil => intro seen; simp [dedupKeepFirst]
  | cons l rest ih =>
    intro seen
    by_cases hl : l ∈ seen
    · rw [dedupKeepFirst, if_pos hl, ih seen]
      constructor
      · rintro ⟨hr, hn⟩
        exact ⟨List.mem_cons_of_mem l hr, hn⟩
      · rintro ⟨hr, hn⟩
        rcases List.mem_cons.1 hr with rfl | hr
        · exact absurd hl hn
        · exact ⟨hr, hn⟩
    · rw [dedupKeepFirst, if_neg hl]
      constructor
      · intro hm
        rcases List.mem_cons.1 hm with rfl | hm
        · exact ⟨List.mem_cons_self a rest, hl⟩
        · obtain ⟨hr, hn⟩ := (ih (l :: seen)).1 hm
          refine ⟨List.mem_cons_of_mem l hr, ?_⟩
          intro hseen
          exact hn (List.mem_cons_of_mem l hseen)
      · rintro ⟨hr, hn⟩
        rcases List.mem_cons.1 hr with rfl | hr
        · exact List.mem_cons_self a _
        · by_cases hal : a = l
          · subst hal
            exact List.mem_cons_self a _
          · refine List.mem_cons_of_mem l ((ih (l :: seen)).2 ⟨hr, ?_⟩)
            intro hm
            rcases List.mem_cons.1 hm with h | h
            · exact hal h
            · exact hn h

theorem dedupKeepFirst_sublist : ∀ (xs seen : List String), List.Sublist (dedupKeepFirst seen xs) xs := by
  intro xs
  induction xs with
  | nil => intro seen; simp [dedupKeepFirst]
  | cons l rest ih =>
    intro seen
    rw [dedupKeepFirst]
    split
    · exact (ih seen).cons l
    · exact (ih (l :: seen)).cons₂ l

theorem dedupKeepFirst_nodup : ∀ (xs seen : List String), (dedupKeepFirst seen xs).Nodup := by
  intro xs
  induction xs with
  | nil => intro seen; simp [dedupKeepFirst]
  | cons l rest ih =>
    intro seen
    rw [dedupKeepFirst]
    split
    · exact ih seen
    · refine List.nodup_cons.2 ⟨?_, ih (l :: seen)⟩
      intro hm
      exact ((dedupKeepFirst_mem l rest (l :: seen)).1 hm).2 (List.mem_cons_self l seen)

/-- C9: when no tracked link was extracted the markup is unchanged; when
at least one was, exactly one row is appended after all existing rows
(a fresh single-row grid when there was no markup), holding one button
per distinct tracked link — deduplicated by value, first-seen order (a
duplicate-free sublist of the extracted list with the same members) —
each labeled `"Open (Terabox)"` with the link's redirect as URL. -/
theorem c9_append_row (cfg : Config) (links : List String) (kb : Option Grid) :
    (links = [] → appendTeraboxRow cfg links kb = kb) ∧
    (links ≠ [] →
      appendTeraboxRow cfg links kb =
        some (kb.getD [] ++
          [(dedupKeepFirst [] links).map
            (fun l => { text := "Open (Terabox)", url := some (build_redirect cfg l),
                        callback_data := none })]) ∧
      (dedupKeepFirst [] links).Nodup ∧
      (∀ l, l ∈ dedupKeepFirst [] links ↔ l ∈ links) ∧
      List.Sublist (dedupKeepFirst [] links) links) := by
  constructor
  · intro h
    simp [appendTeraboxRow, h]
  · intro h
    refine ⟨?_, dedupKeepFirst_nodup links [],
      fun l => by simp [dedupKeepFirst_mem], dedupKeepFirst_sublist links []⟩
    cases kb with
    | none => simp [appendTeraboxRow, h]
    | some rows => simp [appendTeraboxRow, h]

/-- C9 witness: a duplicated link list over an existing one-row grid. -/
theorem c9_witness :
    (["https://terabox.com/a", "https://terabox.com/b", "https://terabox.com/a"] = ([] : List String) →
      appendTeraboxRow ⟨"", [], "", "", ""⟩
        ["https://terabox.com/a", "https://terabox.com/b", "https://terabox.com/a"]
        (some [[dfltButton]]) = some [[dfltButton]]) ∧
    (["https://terabox.com/a", "https://terabox.com/b", "https://terabox.com/a"] ≠ ([] : List String) →
      appendTeraboxRow ⟨"", [], "", "", ""⟩
        ["https://terabox.com/a", "https://terabox.com/b", "https://terabox.com/a"]
        (some [[dfltButton]]) =
        some ((some [[dfltButton]] : Option Grid).getD [] ++
          [(dedupKeepFirst []
              ["https://terabox.com/a", "https://terabox.com/b", "https://terabox.com/a"]).map
            (fun l => { text := "Open (Terabox)",
                        url := some (build_redirect ⟨"", [], "", "", ""⟩ l),
                        callback_data := none })]) ∧
      (dedupKeepFirst []
        ["https://terabox.com/a", "https://terabox.com/b", "https://terabox.com/a"]).Nodup ∧
      (∀ l, l ∈ dedupKeepFirst []
          ["https://terabox.com/a", "https://terabox.com/b", "https://terabox.com/a"] ↔
        l ∈ ["https://terabox.com/a", "https://terabox.com/b", "https://terabox.com/a"]) ∧
      List.Sublist
        (dedupKeepFirst []
          ["https://terabox.com/a", "https://terabox.com/b", "https://terabox.com/a"])
        ["https://terabox.com/a", "https://terabox.com/b", "https://terabox.com/a"]) :=
  c9_append_row ⟨"", [], "", "", ""⟩
    ["https://terabox.com/a", "https://terabox.com/b", "https://terabox.com/a"]
    (some [[dfltButton]])

/-! ### Orchestrator lemmas (C1, C2, C10) -/

theorem already_forwarded_mark (store : Store) (c : String) (m : Int) :
    already_forwarded (mark_forwarded store c m) c m = true := by
  simp only [already_forwarded, mark_forwarded, decide_eq_true_eq]
  split
  · assumption
  · exact List.mem_cons_self (c, m) store

theorem handle_not_dup (cfg : Config) (fails : Call → Bool) (store : Store) (msg : Message)
    (hf : ¬(cfg.SOURCE_CHANNEL_ID ≠ "" ∧ toString msg.chat_id ≠ cfg.SOURCE_CHANNEL_ID))
    (hd : already_forwarded store (toString msg.chat_id) msg.message_id = false) :
    handle_channel_post cfg fails store msg =
      ((relayCalls cfg fails msg).map Event.send ++
          [Event.mark (toString msg.chat_id) msg.message_id],
       mark_forwarded store (toString msg.chat_id) msg.message_id) := by
  simp [handle_channel_post, hf, hd]

theorem handle_dup (cfg : Config) (fails : Call → Bool) (store : Store) (msg : Message)
    (hd : already_forwarded store (toString msg.chat_id) msg.message_id = true) :
    handle_channel_post cfg fails store msg = ([], store) := by
  simp [handle_channel_post, hd]

theorem mem_concatMap {f : α → List β} {b : β} :
    ∀ {l : List α}, b ∈ concatMap f l ↔ ∃ a ∈ l, b ∈ f a := by
  intro l
  induction l with
  | nil => simp [concatMap]
  | cons a as ih => simp [concatMap, ih]

theorem destCalls_head (msg : Message) (cap : String) (kb : Option Grid) (dest : String) :
    ∃ c cs, destCalls msg cap kb dest = c :: cs ∧ c.dest = dest := by
  unfold destCalls
  repeat' split
  all_goals exact ⟨_, _, rfl, rfl⟩

theorem attemptCalls_mem_head (fails : Call → Bool) (c : Call) (cs : List Call) :
    c ∈ attemptCalls fails (c :: cs) := by
  simp only [attemptCalls]
  split
  · exact List.mem_singleton.2 rfl
  · exact List.mem_cons_self c _

theorem attemptCalls_subset (fails : Call → Bool) :
    ∀ (l : List Call) (c : Call), c ∈ attemptCalls fails l → c ∈ l := by
  intro l
  induction l with
  | nil => intro c h; simp [attemptCalls] at h
  | cons a as ih =>
    intro c h
    rw [attemptCalls] at h
    rcases hsplit : fails a with hf | ht
    · rw [hsplit, if_neg (by simp)] at h
      rcases List.mem_cons.1 h with rfl | h
      · exact List.mem_cons_self c as
      · exact List.mem_cons_of_mem a (ih c h)
    · rw [hsplit, if_pos rfl] at h
      rcases List.mem_singleton.1 h with rfl
      exact List.mem_cons_self c as

theorem relayCalls_cover (cfg : Config) (fails : Call → Bool) (msg : Message) :
    ∀ dest ∈ cfg.DEST_LIST, ∃ c ∈ relayCalls cfg fails msg, c.dest = dest := by
  intro dest hdest
  obtain ⟨c, cs, hcs, hcd⟩ := destCalls_head msg (relayCaption cfg msg) (relayMarkup cfg msg) dest
  refine ⟨c, ?_, hcd⟩
  simp only [relayCalls]
  exact mem_concatMap.2 ⟨dest, hdest, by rw [hcs]; exact attemptCalls_mem_head fails c cs⟩

/-! ### C1: dedupe across two sequential attempts -/

/-- C1: for two sequential processing attempts for the same
`(chat_id, message_id)` (of a post passing the source filter), after
the first attempt the dedupe key exists in the store, so the second
attempt observes the `exists` check return `true` and produces no
events at all — zero delivery calls — and leaves the store exactly as
the first attempt left it.  At most the first attempt can deliver. -/
theorem c1_dedupe_second_attempt (cfg : Config) (fails fails2 : Call → Bool) (store : Store)
    (msg msg2 : Message)
    (hchat : msg2.chat_id = msg.chat_id) (hid : msg2.message_id = msg.message_id)
    (hfilter : cfg.SOURCE_CHANNEL_ID = "" ∨ toString msg.chat_id = cfg.SOURCE_CHANNEL_ID) :
    already_forwarded (handle_channel_post cfg fails store msg).2
        (toString msg2.chat_id) msg2.message_id = true ∧
    handle_channel_post cfg fails2 (handle_channel_post cfg fails store msg).2 msg2 =
      ([], (handle_channel_post cfg fails store msg).2) := by
  have hf : ¬(cfg.SOURCE_CHANNEL_ID ≠ "" ∧ toString msg.chat_id ≠ cfg.SOURCE_CHANNEL_ID) := by
    rcases hfilter with h | h <;> simp [h]
  have hkey : already_forwarded (handle_channel_post cfg fails store msg).2
      (toString msg.chat_id) msg.message_id = true := by
    cases hd : already_forwarded store (toString msg.chat_id) msg.message_id with
    | false =>
      rw [handle_not_dup cfg fails store msg hf hd]
      exact already_forwarded_mark store (toString msg.chat_id) msg.message_id
    | true =>
      rw [handle_dup cfg fails store msg hd]
      exact hd
  have hkey2 : already_forwarded (handle_channel_post cfg fails store msg).2
      (toString msg2.chat_id) msg2.message_id = true := by
    rw [hchat, hid]
    exact hkey
  exact ⟨hkey2, handle_dup cfg fails2 _ msg2 hkey2⟩

/-- C1 witness, echoing Scenario E: two attempts for
`(chat_id = 42, message_id = 7)` starting from an empty store. -/
theorem c1_witness :
    already_forwarded
        (handle_channel_post ⟨"", ["d1"], "", "t", "f"⟩ (fun _ => false) []
          { chat_id := 42, message_id := 7 }).2 (toString (42 : Int)) 7 = true ∧
    handle_channel_post ⟨"", ["d1"], "", "t", "f"⟩ (fun _ => false)
        (handle_channel_post ⟨"", ["d1"], "", "t", "f"⟩ (fun _ => false) []
          { chat_id := 42, message_id := 7 }).2
        { chat_id := 42, message_id := 7 } =
      ([], (handle_channel_post ⟨"", ["d1"], "", "t", "f"⟩ (fun _ => false) []
          { chat_id := 42, message_id := 7 }).2) :=
  c1_dedupe_second_attempt ⟨"", ["d1"], "", "t", "f"⟩ (fun _ => false) (fun _ => false) []
    { chat_id := 42, message_id := 7 } { chat_id := 42, message_id := 7 }
    rfl rfl (Or.inl rfl)

/-! ### C2: unconditional single commit after all destinations -/

/-- C2: for a post passing the source filter and the duplicate check,
the handler's trace is the delivery calls followed by exactly one
dedupe commit — the commit comes after every delivery attempt, and the
final store is the store with the key inserted.  Every configured
destination receives at least one delivery attempt.  The statement is
quantified over an arbitrary failure oracle `fails`, so it holds in
particular when delivery to every destination raises, and a failure at
one destination never prevents the attempts at the remaining
destinations or the commit. -/
theorem c2_commit_after_all (cfg : Config) (fails : Call → Bool) (store : Store) (msg : Message)
    (hf : ¬(cfg.SOURCE_CHANNEL_ID ≠ "" ∧ toString msg.chat_id ≠ cfg.SOURCE_CHANNEL_ID))
    (hd : already_forwarded store (toString msg.chat_id) msg.message_id = false) :
    ∃ calls : List Call,
      (handle_channel_post cfg fails store msg).1 =
        calls.map Event.send ++ [Event.mark (toString msg.chat_id) msg.message_id] ∧
      (∀ dest ∈ cfg.DEST_LIST, ∃ c ∈ calls, c.dest = dest) ∧
      (handle_channel_post cfg fails store msg).2 =
        mark_forwarded store (toString msg.chat_id) msg.message_id := by
  refine ⟨relayCalls cfg fails msg, ?_, relayCalls_cover cfg fails msg, ?_⟩
  · rw [handle_not_dup cfg fails store msg hf hd]
  · rw [handle_not_dup cfg fails store msg hf hd]

/-- C2 witness: a post processed against two destinations with an
all-raising failure oracle — both destinations still get an attempt and
the commit still happens. -/
theorem c2_witness :
    ∃ calls : List Call,
      (handle_channel_post ⟨"", ["d1", "d2"], "", "t", "f"⟩ (fun _ => true) []
          { chat_id := 42, message_id := 7 }).1 =
        calls.map Event.send ++ [Event.mark (toString (42 : Int)) 7] ∧
      (∀ dest ∈ (⟨"", ["d1", "d2"], "", "t", "f"⟩ : Config).DEST_LIST,
        ∃ c ∈ calls, c.dest = dest) ∧
      (handle_channel_post ⟨"", ["d1", "d2"], "", "t", "f"⟩ (fun _ => true) []
          { chat_id := 42, message_id := 7 }).2 =
        mark_forwarded [] (toString (42 : Int)) 7 :=
  c2_commit_after_all ⟨"", ["d1", "d2"], "", "t", "f"⟩ (fun _ => true) []
    { chat_id := 42, message_id := 7 } (by decide) (by decide)

/-! ### C10: sticker posts drop inline markup -/

theorem destCalls_sticker_markup (msg : Message) (cap : String) (kb : Option Grid)
    (dest : String) (c : Call)
    (hp : msg.photo = []) (hdoc : msg.document = none) (hvid : msg.video = none)
    (haud : msg.audio = none) (hvoi : msg.voice = none) (hst : msg.sticker.isSome = true)
    (h : c ∈ destCalls msg cap kb dest) : c.markup = none := by
  by_cases hc : cap = ""
  · simp [destCalls, hp, hdoc, hvid, haud, hvoi, hst, hc] at h
    subst h
    rfl
  · simp [destCalls, hp, hdoc, hvid, haud, hvoi, hst, hc] at h
    rcases h with h | h <;> subst h <;> rfl

/-- C10: for a sticker post (sticker present, none of the other media
fields set), every delivery call the handler makes — the sticker send
and the follow-up caption message alike — carries no inline button
markup: the converted grid and the appended tracked-link row are
silently dropped. -/
theorem c10_sticker_no_markup (cfg : Config) (fails : Call → Bool) (store : Store) (msg : Message)
    (hp : msg.photo = []) (hdoc : msg.document = none) (hvid : msg.video = none)
    (haud : msg.audio = none) (hvoi : msg.voice = none) (hst : msg.sticker.isSome = true) :
    ∀ c : Call, Event.send c ∈ (handle_channel_post cfg fails store msg).1 → c.markup = none := by
  intro c hc
  by_cases h1 : cfg.SOURCE_CHANNEL_ID ≠ "" ∧ toString msg.chat_id ≠ cfg.SOURCE_CHANNEL_ID
  · rw [handle_channel_post, if_pos h1] at hc
    simp at hc
  · cases h2 : already_forwarded store (toString msg.chat_id) msg.message_id with
    | true =>
      rw [handle_dup cfg fails store msg h2] at hc
      simp at hc
    | false =>
      rw [handle_not_dup cfg fails store msg h1 h2] at hc
      simp only [List.mem_append, List.mem_map, List.mem_singleton, reduceCtorEq,
        or_false, Event.send.injEq] at hc
      obtain ⟨c2, hc2, rfl⟩ := hc
      obtain ⟨dest, _, hatt⟩ := mem_concatMap.1 (by simpa [relayCalls] using hc2)
      exact destCalls_sticker_markup msg _ _ dest c2 hp hdoc hvid haud hvoi hst
        (attemptCalls_subset fails _ c2 hatt)

/-- C10 witness: for a concrete sticker post carrying a reply markup,
the sticker delivery call the handler actually makes has no markup. -/
theorem c10_witness :
    ({ dest := "d1", kind := CallKind.sticker, payload := some "st" } : Call).markup = none :=
  c10_sticker_no_markup ⟨"", ["d1"], "", "t", "f"⟩ (fun _ => false) []
    { chat_id := 42, message_id := 7, sticker := some "st",
      reply_markup := some [[dfltButton]] }
    rfl rfl rfl rfl rfl rfl
    { dest := "d1", kind := CallKind.sticker, payload := some "st" }
    (by decide)

end Forwarder
